import Mathlib

/-!
# Verification of the grunt-haproxy proxy lifecycle supervisor

Shallow embedding of `src/node_modules/grunt-haproxy/tasks/haproxy.js`
(the repository's only original logic).  The task body is, per file group
`f` (fields `f.src : List String`, `f.dest[0] : String`):

```
var _restart;
var src = f.src.filter(function(filepath) {
  var _path = path.resolve(path.dirname(__dirname), filepath);
  if (fs.existsSync(f.dest[0])) {
    try {
      var pid = fs.readFileSync(f.dest[0], 'utf8');
      process.kill(pid);
      fs.unlinkSync(f.dest[0]);
      _restart = true;
    } catch (error) { /* swallowed */ }
  }
  var _instance = spawn('haproxy', ['-f ', _path, '-p ', f.dest[0], '-D'],
                        {detached: true});
  _instance.on('close', function(code) {
    if (_restart) grunt.task.run(['notify:haproxyReloaded']);
    else          grunt.task.run(['notify:haproxyStarted']);
    done();
    if (code !== 0) console.log(...);
  });
});
```

Modelling decisions (environment semantics, not source text):

* The PID file `f.dest[0]` is the only file the task reads or writes; its
  content is a `Option String` (`none` = absent, matching `fs.existsSync`).
  Within one synchronous cycle no external writer mutates it, so the state
  threads it explicitly.
* `process.kill(pid)` receives the raw string read from the file.  We model
  the runtime's coercion of that string as: trim whitespace, parse a decimal
  numeral; a non-numeral or a non-positive value makes the kill throw
  (`badPid`); a numeral naming no live process throws `ESRCH`; a live process
  the supervisor may not signal throws `EPERM`; otherwise the signal is
  delivered and the process dies.  The catch block in the source swallows
  every such error.
* `path.resolve(path.dirname(__dirname), filepath)` is an opaque injective
  map of the environment, field `resolve` below.
* The spawned haproxy is handed `-p f.dest[0]`, so every spawned process of
  a group is bound to the same PID-file destination.
* `close` events fire on the event loop, strictly after the synchronous
  `forEach`/`filter` body has finished, so each close handler observes the
  final value of the shared `_restart` flag.  A daemonising child may also
  never fire `close` while the daemon serves; the set of observed closes is
  therefore a parameter (`closes`, the list of observed exit codes).
* The source never consults the existence of a configuration file; the
  environment still carries a predicate `cfgExists` so that statements about
  absent configuration files can be expressed.  `runCycle` does not read it,
  which is itself a faithfulness statement.
-/

/-- Reasons `process.kill` can throw in the model: unparsable pid string,
no such process, or no permission to signal it. -/
inductive KillError : Type where
  | badPid : KillError
  | esrch : KillError
  | eperm : KillError
deriving DecidableEq, Repr

/-- The three notify targets of the task.  `haproxyFailed` appears in the
source only inside a comment; the model carries it so that "a failed outcome
is reported" is expressible. -/
inductive Notification : Type where
  | haproxyStarted : Notification
  | haproxyReloaded : Notification
  | haproxyFailed : Notification
deriving DecidableEq, Repr

/-- Events of one cycle, tagged by the index of the `f.src` entry whose
filter callback emitted them.  `termDone` marks the point where the
check-and-terminate block (the `if (fs.existsSync...)` statement) has
completed and control reaches the `spawn` call. -/
inductive Ev : Type where
  | killOk : Nat → Ev
  | killErr : KillError → Ev
  | unlinkEv : Ev
  | termDone : Ev
  | spawnEv : String → Ev
deriving DecidableEq, Repr

/-- The OS environment a cycle runs against: which pids have a live process
at cycle start, which of those the supervisor is permitted to signal, which
configuration paths exist, and the `path.resolve` map. -/
structure Env : Type where
  running : Nat → Bool
  permitted : Nat → Bool
  cfgExists : String → Bool
  resolve : String → String

/-- Mutable state threaded through one cycle of the task body for one file
group: the PID-file content at `f.dest[0]`, the shared `_restart` flag
(JavaScript `undefined` modelled as `false`), the pids terminated so far,
the resolved config paths of the processes spawned so far (each spawned
with `-p f.dest[0]`, hence bound to the group's destination), the event
trace, and the index of the current `f.src` entry. -/
structure CycleState : Type where
  pidFile : Option String
  restartFlag : Bool
  killed : List Nat
  spawned : List String
  events : List (Nat × Ev)
  idx : Nat
deriving DecidableEq, Repr

/-- Whitespace characters stripped by the runtime's string-to-number
coercion (space, newline, tab, carriage return). -/
def isWs (c : Char) : Bool :=
  c == ' ' || c == '\n' || c == '\t' || c == '\r'

/-- Drop leading whitespace from a character list. -/
def dropWs : List Char → List Char
  | [] => []
  | c :: cs => if isWs c then dropWs cs else c :: cs

/-- Parse a nonempty all-digit character list as a decimal numeral. -/
def parseNatAux : List Char → Nat → Option Nat
  | [], acc => some acc
  | c :: cs, acc =>
      if 48 ≤ c.toNat && c.toNat ≤ 57 then
        parseNatAux cs (acc * 10 + (c.toNat - 48))
      else none

/-- Coercion of the PID-file content handed to `process.kill`: strip
whitespace on both ends, then require a nonempty decimal numeral naming a
positive pid.  Anything else makes the kill throw. -/
def parsePid (s : String) : Option Nat :=
  match dropWs (dropWs s.data.reverse).reverse with
  | [] => none
  | cs =>
      match parseNatAux cs 0 with
      | some n => if 0 < n then some n else none
      | none => none

/-- Outcome of `process.kill(content)` against the environment: the pid it
delivered the signal to, or the error thrown. -/
def killResult (env : Env) (content : String) : Except KillError Nat :=
  match parsePid content with
  | none => Except.error KillError.badPid
  | some p =>
      if env.running p then
        if env.permitted p then Except.ok p else Except.error KillError.eperm
      else Except.error KillError.esrch

/-- One execution of the filter callback for one `f.src` entry: the
check-and-terminate block (guarded by `fs.existsSync(f.dest[0])`, with the
try-catch swallowing every kill error and, on a throw, skipping both the
`unlinkSync` and the `_restart = true` that follow it), then the
unconditional `spawn`. -/
def processSrc (env : Env) (st : CycleState) (filepath : String) : CycleState :=
  let st1 :=
    match st.pidFile with
    | none => st
    | some content =>
        match killResult env content with
        | Except.ok p =>
            { st with
              pidFile := none
              restartFlag := true
              killed := st.killed ++ [p]
              events := st.events ++ [(st.idx, Ev.killOk p), (st.idx, Ev.unlinkEv)] }
        | Except.error e =>
            { st with events := st.events ++ [(st.idx, Ev.killErr e)] }
  { st1 with
    spawned := st1.spawned ++ [env.resolve filepath]
    events := st1.events ++ [(st1.idx, Ev.termDone), (st1.idx, Ev.spawnEv (env.resolve filepath))]
    idx := st1.idx + 1 }

/-- State at the start of a cycle whose PID file holds `pf`. -/
def initState (pf : Option String) : CycleState :=
  { pidFile := pf, restartFlag := false, killed := [], spawned := [], events := [], idx := 0 }

/-- One cycle of the task for a file group with sources `src` and initial
PID-file content `pf`: `f.src.filter(...)` runs the callback once per entry
in order (the callback's return value, `undefined`, is irrelevant to the
side effects). -/
def runCycle (env : Env) (src : List String) (pf : Option String) : CycleState :=
  src.foldl (processSrc env) (initState pf)

/-- The notification dispatched by one `close` handler: it reads the shared
`_restart` flag at the time the close event fires, which is after the
synchronous cycle, hence the flag's final value.  The exit code is only
logged, never classified. -/
def closeDispatch (flag : Bool) : Notification :=
  if flag then Notification.haproxyReloaded else Notification.haproxyStarted

/-- Notifications produced by a cycle, one per observed close event.
`closes` lists the exit codes of those spawned processes whose `close`
event fires; a detached daemon that keeps serving fires none. -/
def cycleNotifications (st : CycleState) (closes : List Int) : List Notification :=
  closes.map (fun _ => closeDispatch st.restartFlag)

/-- Events emitted by the check-and-terminate block of one filter-callback
run, as a function of the PID-file content it observes. -/
def termEvents (env : Env) (pf : Option String) (n : Nat) : List (Nat × Ev) :=
  match pf with
  | none => []
  | some c =>
      match killResult env c with
      | Except.ok p => [(n, Ev.killOk p), (n, Ev.unlinkEv)]
      | Except.error e => [(n, Ev.killErr e)]

/-- PID-file content after one check-and-terminate block: unlinked exactly
when the kill succeeded, untouched when the kill threw. -/
def pfAfter (env : Env) (pf : Option String) : Option String :=
  match pf with
  | none => none
  | some c =>
      match killResult env c with
      | Except.ok _ => none
      | Except.error _ => some c

/-- `_restart` flag after one check-and-terminate block. -/
def flagAfter (env : Env) (pf : Option String) (b : Bool) : Bool :=
  match pf with
  | none => b
  | some c =>
      match killResult env c with
      | Except.ok _ => true
      | Except.error _ => b

/-- Terminated-pid list after one check-and-terminate block. -/
def killedAfter (env : Env) (pf : Option String) (ks : List Nat) : List Nat :=
  match pf with
  | none => ks
  | some c =>
      match killResult env c with
      | Except.ok p => ks ++ [p]
      | Except.error _ => ks

/-- Event trace of the remainder of a cycle, from a given PID-file content
and src-entry index: one block per remaining src entry, each block being
its termination events, the termination-complete marker, then its spawn. -/
def trFrom (env : Env) : Option String → Nat → List String → List (Nat × Ev)
  | _, _, [] => []
  | pf, n, fp :: rest =>
      (termEvents env pf n ++ [(n, Ev.termDone), (n, Ev.spawnEv (env.resolve fp))])
        ++ trFrom env (pfAfter env pf) (n + 1) rest

/-- Environment in which pid 7 is alive and signallable and every
configuration file exists; `resolve` is the identity. -/
def envA : Env :=
  { running := fun p => p == 7
    permitted := fun _ => true
    cfgExists := fun _ => true
    resolve := fun s => s }

/-! ## Characterization lemmas -/

lemma processSrc_eq (env : Env) (st : CycleState) (fp : String) :
    processSrc env st fp =
      { pidFile := pfAfter env st.pidFile
        restartFlag := flagAfter env st.pidFile st.restartFlag
        killed := killedAfter env st.pidFile st.killed
        spawned := st.spawned ++ [env.resolve fp]
        events := st.events ++ termEvents env st.pidFile st.idx
                    ++ [(st.idx, Ev.termDone), (st.idx, Ev.spawnEv (env.resolve fp))]
        idx := st.idx + 1 } := by
  cases h : st.pidFile with
  | none =>
      simp [processSrc, pfAfter, flagAfter, killedAfter, termEvents, h]
  | some c =>
      cases hk : killResult env c with
      | ok p =>
          simp [processSrc, pfAfter, flagAfter, killedAfter, termEvents, h, hk]
      | error e =>
          simp [processSrc, pfAfter, flagAfter, killedAfter, termEvents, h, hk]

lemma pfAfter_idem (env : Env) (pf : Option String) :
    pfAfter env (pfAfter env pf) = pfAfter env pf := by
  cases pf with
  | none => rfl
  | some c =>
      cases hk : killResult env c with
      | ok p => simp [pfAfter, hk]
      | error e => simp [pfAfter, hk]

lemma flagAfter_stable (env : Env) (pf : Option String) (b : Bool) :
    flagAfter env (pfAfter env pf) (flagAfter env pf b) = flagAfter env pf b := by
  cases pf with
  | none => rfl
  | some c =>
      cases hk : killResult env c with
      | ok p => simp [pfAfter, flagAfter, hk]
      | error e => simp [pfAfter, flagAfter, hk]

lemma killedAfter_stable (env : Env) (pf : Option String) (ks : List Nat) :
    killedAfter env (pfAfter env pf) (killedAfter env pf ks) = killedAfter env pf ks := by
  cases pf with
  | none => rfl
  | some c =>
      cases hk : killResult env c with
      | ok p => simp [pfAfter, killedAfter, hk]
      | error e => simp [pfAfter, killedAfter, hk]

lemma foldl_pidFile (env : Env) (fps : List String) : ∀ (st : CycleState),
    (fps.foldl (processSrc env) st).pidFile =
      if fps.isEmpty then st.pidFile else pfAfter env st.pidFile := by
  induction fps with
  | nil => intro st; rfl
  | cons fp rest ih =>
      intro st
      rw [List.foldl_cons, ih]
      by_cases hrest : rest.isEmpty <;>
        simp [hrest, processSrc_eq, pfAfter_idem]

lemma foldl_flag (env : Env) (fps : List String) : ∀ (st : CycleState),
    (fps.foldl (processSrc env) st).restartFlag =
      if fps.isEmpty then st.restartFlag else flagAfter env st.pidFile st.restartFlag := by
  induction fps with
  | nil => intro st; rfl
  | cons fp rest ih =>
      intro st
      rw [List.foldl_cons, ih]
      by_cases hrest : rest.isEmpty <;>
        simp [hrest, processSrc_eq, flagAfter_stable]

lemma foldl_killed (env : Env) (fps : List String) : ∀ (st : CycleState),
    (fps.foldl (processSrc env) st).killed =
      if fps.isEmpty then st.killed else killedAfter env st.pidFile st.killed := by
  induction fps with
  | nil => intro st; rfl
  | cons fp rest ih =>
      intro st
      rw [List.foldl_cons, ih]
      by_cases hrest : rest.isEmpty <;>
        simp [hrest, processSrc_eq, killedAfter_stable]

lemma foldl_spawned (env : Env) (fps : List String) : ∀ (st : CycleState),
    (fps.foldl (processSrc env) st).spawned = st.spawned ++ fps.map env.resolve := by
  induction fps with
  | nil => intro st; simp
  | cons fp rest ih =>
      intro st
      rw [List.foldl_cons, ih]
      simp [processSrc_eq]

lemma foldl_events (env : Env) (fps : List String) : ∀ (st : CycleState),
    (fps.foldl (processSrc env) st).events =
      st.events ++ trFrom env st.pidFile st.idx fps := by
  induction fps with
  | nil => intro st; simp [trFrom]
  | cons fp rest ih =>
      intro st
      rw [List.foldl_cons, ih]
      simp [processSrc_eq, trFrom, List.append_assoc]

lemma runCycle_pidFile (env : Env) (src : List String) (pf : Option String) :
    (runCycle env src pf).pidFile = if src.isEmpty then pf else pfAfter env pf :=
  foldl_pidFile env src (initState pf)

lemma runCycle_flag (env : Env) (src : List String) (pf : Option String) :
    (runCycle env src pf).restartFlag =
      if src.isEmpty then false else flagAfter env pf false :=
  foldl_flag env src (initState pf)

lemma runCycle_killed (env : Env) (src : List String) (pf : Option String) :
    (runCycle env src pf).killed =
      if src.isEmpty then [] else killedAfter env pf [] :=
  foldl_killed env src (initState pf)

lemma runCycle_spawned (env : Env) (src : List String) (pf : Option String) :
    (runCycle env src pf).spawned = src.map env.resolve := by
  have h := foldl_spawned env src (initState pf)
  simpa [runCycle, initState] using h

lemma runCycle_events (env : Env) (src : List String) (pf : Option String) :
    (runCycle env src pf).events = trFrom env pf 0 src := by
  have h := foldl_events env src (initState pf)
  simpa [runCycle, initState] using h

lemma cycleNotifications_ne_failed (st : CycleState) (closes : List Int) :
    Notification.haproxyFailed ∉ cycleNotifications st closes := by
  intro h
  rcases List.mem_map.mp h with ⟨x, _, hx⟩
  cases hst : st.restartFlag <;> simp [closeDispatch, hst] at hx

/-! ## Environments used as concrete inputs -/

/-- Environment with every configuration file absent and no live process. -/
def envNoCfg : Env :=
  { running := fun _ => false
    permitted := fun _ => true
    cfgExists := fun _ => false
    resolve := fun s => s }

/-- Environment in which no process is alive (every recorded pid is stale). -/
def envDead : Env :=
  { running := fun _ => false
    permitted := fun _ => true
    cfgExists := fun _ => true
    resolve := fun s => s }

/-- Environment in which pid 7 is alive but the supervisor lacks permission
to signal it. -/
def envEperm : Env :=
  { running := fun p => p == 7
    permitted := fun _ => false
    cfgExists := fun _ => true
    resolve := fun s => s }

/-! ## Claims -/

/-- Claim C1 is false on the code: a file group mapping two `src` entries to
one `dest` makes the filter callback spawn once per entry, so a single cycle
leaves two live processes it spawned, both handed `-p` pointing at the same
PID-file destination. -/
theorem c1_counterexample :
    ¬ ((runCycle envA ["cfg1", "cfg2"] none).spawned.length ≤ 1) := by decide

/-- Claim C1 (amended): one cycle spawns exactly one process per `f.src`
entry, each bound by `-p f.dest[0]` to the group's one PID-file destination;
only for a group with a single src entry does a cycle leave at most one
process it spawned on that destination. -/
theorem c1_amended (env : Env) (src : List String) (pf : Option String) :
    (runCycle env src pf).spawned.length = src.length := by
  simp [runCycle_spawned]

/-- Claim C2 is false on the code: the task never consults the existence of
`configPath` (it only tests `fs.existsSync(f.dest[0])`), so with every
configuration file absent it still spawns a process and the close handler
still reports `started`, never `failed`. -/
theorem c2_counterexample :
    envNoCfg.cfgExists "cfg1" = false ∧
    (runCycle envNoCfg ["cfg1"] none).spawned.length = 1 ∧
    cycleNotifications (runCycle envNoCfg ["cfg1"] none) [0]
      = [Notification.haproxyStarted] := by decide

/-- Claim C2 (amended): a cycle never checks `configPath`; even when every
configuration path is absent it spawns one process per src entry, and no
`failed` notification is ever produced. -/
theorem c2_amended (env : Env) (src : List String) (pf : Option String)
    (closes : List Int) (_h : ∀ p, env.cfgExists p = false) :
    (runCycle env src pf).spawned.length = src.length ∧
    Notification.haproxyFailed ∉ cycleNotifications (runCycle env src pf) closes :=
  ⟨by simp [runCycle_spawned], cycleNotifications_ne_failed _ _⟩

/-- Witness for the amended C2 at a concrete input. -/
theorem c2_amended_witness :
    (runCycle envNoCfg ["cfg1"] none).spawned.length = 1 ∧
    Notification.haproxyFailed ∉ cycleNotifications (runCycle envNoCfg ["cfg1"] none) [0] :=
  c2_amended envNoCfg ["cfg1"] none [0] (fun _ => rfl)

/-- Claim C3 is false on the code: when the recorded pid has no live process,
`process.kill` throws, and the catch block skips both the `fs.unlinkSync`
and the `_restart = true` that come after the kill — the PID file is not
deleted and the flag stays unset.  (The cycle does still spawn.) -/
theorem c3_counterexample :
    envDead.running 999 = false ∧
    (runCycle envDead ["cfg1"] (some "999")).pidFile = some "999" ∧
    (runCycle envDead ["cfg1"] (some "999")).restartFlag = false := by decide

/-- Claim C3 (amended): a PID file naming a pid with no live process does
not abort the cycle (the thrown `ESRCH` is swallowed) and launch still
proceeds, one spawn per src entry; but the stale PID file is left in place,
`priorInstanceExisted` stays false, and every observed close is classified
`started`, not `reloaded`. -/
theorem c3_amended (env : Env) (src : List String) (c : String) (p : Nat)
    (closes : List Int) (hp : parsePid c = some p) (hr : env.running p = false) :
    (runCycle env src (some c)).pidFile = some c ∧
    (runCycle env src (some c)).restartFlag = false ∧
    (runCycle env src (some c)).spawned.length = src.length ∧
    cycleNotifications (runCycle env src (some c)) closes
      = closes.map (fun _ => Notification.haproxyStarted) := by
  have hk : killResult env c = Except.error KillError.esrch := by
    simp [killResult, hp, hr]
  have hfl : (runCycle env src (some c)).restartFlag = false := by
    rw [runCycle_flag]
    by_cases h : src.isEmpty <;> simp [h, flagAfter, hk]
  refine ⟨?_, hfl, ?_, ?_⟩
  · rw [runCycle_pidFile]
    by_cases h : src.isEmpty <;> simp [h, pfAfter, hk]
  · simp [runCycle_spawned]
  · simp [cycleNotifications, hfl, closeDispatch]

/-- Witness for the amended C3 at a concrete input. -/
theorem c3_amended_witness :
    (runCycle envDead ["cfg1"] (some "999")).pidFile = some "999" ∧
    (runCycle envDead ["cfg1"] (some "999")).restartFlag = false ∧
    (runCycle envDead ["cfg1"] (some "999")).spawned.length = 1 ∧
    cycleNotifications (runCycle envDead ["cfg1"] (some "999")) [0]
      = [Notification.haproxyStarted] :=
  c3_amended envDead ["cfg1"] "999" 999 [0] (by decide) rfl

/-- Claim C4 is false on the code: when the kill of a live prior process
throws for lack of permission, the catch block swallows the error — the
cycle does not abort, nothing is surfaced to the caller, a replacement is
spawned anyway, and the close is reported `started`, not `failed`.  Only
the "stale PID file left untouched" part of the claim holds. -/
theorem c4_counterexample :
    envEperm.running 7 = true ∧
    envEperm.permitted 7 = false ∧
    (runCycle envEperm ["cfg1"] (some "7")).spawned.length = 1 ∧
    cycleNotifications (runCycle envEperm ["cfg1"] (some "7")) [0]
      = [Notification.haproxyStarted] ∧
    (runCycle envEperm ["cfg1"] (some "7")).pidFile = some "7" := by decide

/-- Claim C4 (amended): when signal delivery to a live prior process fails
with a permission error, the stale PID file is indeed left untouched, but
the cycle does not abort: the error is swallowed, one replacement is
spawned per src entry, and every observed close reports `started`; no
`failed` outcome is surfaced. -/
theorem c4_amended (env : Env) (src : List String) (c : String) (p : Nat)
    (closes : List Int) (hp : parsePid c = some p) (hr : env.running p = true)
    (hm : env.permitted p = false) :
    (runCycle env src (some c)).pidFile = some c ∧
    (runCycle env src (some c)).restartFlag = false ∧
    (runCycle env src (some c)).spawned.length = src.length ∧
    cycleNotifications (runCycle env src (some c)) closes
      = closes.map (fun _ => Notification.haproxyStarted) := by
  have hk : killResult env c = Except.error KillError.eperm := by
    simp [killResult, hp, hr, hm]
  have hfl : (runCycle env src (some c)).restartFlag = false := by
    rw [runCycle_flag]
    by_cases h : src.isEmpty <;> simp [h, flagAfter, hk]
  refine ⟨?_, hfl, ?_, ?_⟩
  · rw [runCycle_pidFile]
    by_cases h : src.isEmpty <;> simp [h, pfAfter, hk]
  · simp [runCycle_spawned]
  · simp [cycleNotifications, hfl, closeDispatch]

/-- Witness for the amended C4 at a concrete input. -/
theorem c4_amended_witness :
    (runCycle envEperm ["cfg1"] (some "7")).pidFile = some "7" ∧
    (runCycle envEperm ["cfg1"] (some "7")).restartFlag = false ∧
    (runCycle envEperm ["cfg1"] (some "7")).spawned.length = 1 ∧
    cycleNotifications (runCycle envEperm ["cfg1"] (some "7")) [0]
      = [Notification.haproxyStarted] :=
  c4_amended envEperm ["cfg1"] "7" 7 [0] (by decide) (by decide) rfl

/-- Claim C5 is false on the code: notifications are dispatched only from a
`close` handler, so a cycle whose spawned daemon never fires `close`
produces no notification at all (silence); and an observed nonzero exit
code is still reported through `notify:haproxyStarted` (the exit code is
only logged; `notify:haproxyFailed` exists only in a comment), not as a
post-hoc failure notification. -/
theorem c5_counterexample :
    cycleNotifications (runCycle envA ["cfg1"] none) [] = [] ∧
    cycleNotifications (runCycle envA ["cfg1"] none) [1]
      = [Notification.haproxyStarted] ∧
    (runCycle envA ["cfg1"] none).spawned.length = 1 := by decide

/-- Claim C5 (amended): a cycle produces exactly one notification per
observed close event — none for a process that never closes — and the
notification is `started` or `reloaded` regardless of the exit code; a
`failed` notification is never produced. -/
theorem c5_amended (env : Env) (src : List String) (pf : Option String)
    (closes : List Int) :
    (cycleNotifications (runCycle env src pf) closes).length = closes.length ∧
    Notification.haproxyFailed ∉ cycleNotifications (runCycle env src pf) closes :=
  ⟨by simp [cycleNotifications], cycleNotifications_ne_failed _ _⟩

/-- Claim C6: a PID file whose content does not parse as a positive integer
makes `process.kill` throw; the catch swallows it, so the flag stays false,
every src entry still launches, and the cycle behaves exactly as with an
absent PID file: same spawns and same (`started`) notifications.  (The
corrupt file itself is left on disk, as an absent file trivially is not.) -/
theorem c6_corrupt_pid (env : Env) (src : List String) (c : String)
    (closes : List Int) (h : parsePid c = none) :
    (runCycle env src (some c)).restartFlag = false ∧
    (runCycle env src (some c)).spawned = (runCycle env src none).spawned ∧
    (runCycle env src (some c)).spawned.length = src.length ∧
    cycleNotifications (runCycle env src (some c)) closes
      = cycleNotifications (runCycle env src none) closes ∧
    cycleNotifications (runCycle env src (some c)) closes
      = closes.map (fun _ => Notification.haproxyStarted) := by
  have hk : killResult env c = Except.error KillError.badPid := by
    simp [killResult, h]
  have hfl : (runCycle env src (some c)).restartFlag = false := by
    rw [runCycle_flag]
    by_cases hs : src.isEmpty <;> simp [hs, flagAfter, hk]
  have hfl2 : (runCycle env src none).restartFlag = false := by
    rw [runCycle_flag]
    by_cases hs : src.isEmpty <;> simp [hs, flagAfter]
  refine ⟨hfl, ?_, ?_, ?_, ?_⟩
  · simp [runCycle_spawned]
  · simp [runCycle_spawned]
  · simp [cycleNotifications, hfl, hfl2]
  · simp [cycleNotifications, hfl, closeDispatch]

/-- Witness for C6 at the spec's own example content, the string "abc". -/
theorem c6_corrupt_pid_witness :
    (runCycle envA ["cfg1"] (some "abc")).restartFlag = false ∧
    (runCycle envA ["cfg1"] (some "abc")).spawned
      = (runCycle envA ["cfg1"] none).spawned ∧
    (runCycle envA ["cfg1"] (some "abc")).spawned.length = 1 ∧
    cycleNotifications (runCycle envA ["cfg1"] (some "abc")) [0]
      = cycleNotifications (runCycle envA ["cfg1"] none) [0] ∧
    cycleNotifications (runCycle envA ["cfg1"] (some "abc")) [0]
      = [Notification.haproxyStarted] :=
  c6_corrupt_pid envA ["cfg1"] "abc" [0] (by decide)

/-- Claim C7: two consecutive cycles on a single-source target.  The first
runs with no PID file, so its flag stays false and its close reports
`started`.  "No intervening external process changes" leaves the daemon
launched by cycle one alive and its pid recorded in the PID file (the
spawned daemon, not the supervisor, writes it — spec section 4.3), which
the hypotheses state: the file parses to a pid `d` that is running and
signallable.  The second cycle then kills `d`, unlinks the file, sets the
flag, and its close reports `reloaded` — `started` then `reloaded`, never
two `started`s, never `reloaded` first. -/
theorem c7_started_then_reloaded (env1 env2 : Env) (cfg c2 : String) (d : Nat)
    (code1 code2 : Int) (hp : parsePid c2 = some d) (hr : env2.running d = true)
    (hm : env2.permitted d = true) :
    (runCycle env1 [cfg] none).restartFlag = false ∧
    cycleNotifications (runCycle env1 [cfg] none) [code1]
      = [Notification.haproxyStarted] ∧
    (runCycle env2 [cfg] (some c2)).restartFlag = true ∧
    cycleNotifications (runCycle env2 [cfg] (some c2)) [code2]
      = [Notification.haproxyReloaded] ∧
    (runCycle env2 [cfg] (some c2)).killed = [d] ∧
    (runCycle env2 [cfg] (some c2)).pidFile = none := by
  have hk : killResult env2 c2 = Except.ok d := by
    simp [killResult, hp, hr, hm]
  have h1 : (runCycle env1 [cfg] none).restartFlag = false := by
    simp [runCycle_flag, flagAfter]
  have h2 : (runCycle env2 [cfg] (some c2)).restartFlag = true := by
    simp [runCycle_flag, flagAfter, hk]
  refine ⟨h1, ?_, h2, ?_, ?_, ?_⟩
  · simp [cycleNotifications, h1, closeDispatch]
  · simp [cycleNotifications, h2, closeDispatch]
  · simp [runCycle_killed, killedAfter, hk]
  · simp [runCycle_pidFile, pfAfter, hk]

/-- Witness for C7 at a concrete input: daemon pid 7, PID file content "7". -/
theorem c7_started_then_reloaded_witness :
    (runCycle envA ["cfg1"] none).restartFlag = false ∧
    cycleNotifications (runCycle envA ["cfg1"] none) [0]
      = [Notification.haproxyStarted] ∧
    (runCycle envA ["cfg1"] (some "7")).restartFlag = true ∧
    cycleNotifications (runCycle envA ["cfg1"] (some "7")) [0]
      = [Notification.haproxyReloaded] ∧
    (runCycle envA ["cfg1"] (some "7")).killed = [7] ∧
    (runCycle envA ["cfg1"] (some "7")).pidFile = none :=
  c7_started_then_reloaded envA envA "cfg1" "7" 7 0 0 (by decide) (by decide) rfl

/-- Claim C8 is false on the code: `f.src.filter(callback)` runs the
spawning callback once per src entry, so a group with several sources for
one destination spawns several processes, each with its own resolved
configPath — not one spawn using only the first source. -/
theorem c8_counterexample :
    (runCycle envA ["cfg1", "cfg2"] none).spawned = ["cfg1", "cfg2"] ∧
    (runCycle envA ["cfg1", "cfg2"] none).spawned.length ≠ 1 := by decide

/-- Claim C8 (amended): for a multi-source group, every resolved configPath
is used, one spawn per src entry in order: the spawn arguments are exactly
`src.map env.resolve`. -/
theorem c8_amended (env : Env) (src : List String) (pf : Option String) :
    (runCycle env src pf).spawned = src.map env.resolve := by
  simp [runCycle_spawned]

lemma termEvents_tag (env : Env) (pf : Option String) (n : Nat) :
    ∀ e ∈ termEvents env pf n, e.1 = n := by
  cases pf with
  | none => simp [termEvents]
  | some c =>
      cases hk : killResult env c with
      | ok p =>
          intro e he
          simp [termEvents, hk] at he
          rcases he with he | he <;> simp [he]
      | error e2 =>
          intro e he
          simp [termEvents, hk] at he
          simp [he]

lemma trFrom_tags_ge (env : Env) : ∀ (fps : List String) (pf : Option String)
    (n : Nat), ∀ e ∈ trFrom env pf n fps, n ≤ e.1 := by
  intro fps
  induction fps with
  | nil => intro pf n e he; simp [trFrom] at he
  | cons fp rest ih =>
      intro pf n e he
      simp only [trFrom, List.append_assoc, List.mem_append] at he
      rcases he with he | he | he
      · exact le_of_eq (termEvents_tag env pf n e he).symm
      · simp only [List.mem_cons, List.mem_singleton] at he
        rcases he with he | he | he
        · simp [he]
        · simp [he]
        · simp at he
      · have := ih (pfAfter env pf) (n + 1) e he
        omega

lemma trFrom_decomp (env : Env) : ∀ (fps : List String) (pf : Option String)
    (n k : Nat), k < fps.length →
    ∃ A tE B p,
      trFrom env pf n fps
        = A ++ tE ++ [(n + k, Ev.termDone), (n + k, Ev.spawnEv p)] ++ B ∧
      (∀ e ∈ A, e.1 < n + k) ∧ (∀ e ∈ tE, e.1 = n + k) ∧ (∀ e ∈ B, n + k < e.1) := by
  intro fps
  induction fps with
  | nil => intro pf n k hk; simp at hk
  | cons fp rest ih =>
      intro pf n k hk
      cases k with
      | zero =>
          refine ⟨[], termEvents env pf n,
            trFrom env (pfAfter env pf) (n + 1) rest, env.resolve fp, ?_, ?_, ?_, ?_⟩
          · simp [trFrom]
          · simp
          · intro e he
            simpa using termEvents_tag env pf n e he
          · intro e he
            have := trFrom_tags_ge env rest (pfAfter env pf) (n + 1) e he
            omega
      | succ k2 =>
          have hk2 : k2 < rest.length := by
            simpa using Nat.lt_of_succ_lt_succ hk
          rcases ih (pfAfter env pf) (n + 1) k2 hk2 with ⟨A, tE, B, p, heq, hA, htE, hB⟩
          have hnk : n + 1 + k2 = n + (k2 + 1) := by omega
          rw [hnk] at heq hA htE hB
          refine ⟨(termEvents env pf n
              ++ [(n, Ev.termDone), (n, Ev.spawnEv (env.resolve fp))]) ++ A,
            tE, B, p, ?_, ?_, htE, hB⟩
          · simp only [trFrom]
            rw [heq]
            simp [List.append_assoc]
          · intro e he
            simp only [List.mem_append] at he
            rcases he with (he | he) | he
            · have := termEvents_tag env pf n e he
              omega
            · simp only [List.mem_cons, List.mem_singleton] at he
              rcases he with he | he | he
              · simp [he]
              · simp [he]
              · simp at he
            · have := hA e he
              omega

/-- Claim C9: in the event trace of one cycle, the events decompose, for
each src-entry index `k`, into events of earlier entries, then entry `k`'s
termination events, then entry `k`'s check-and-terminate-complete marker,
then — immediately after it — entry `k`'s spawn, then events of later
entries.  In particular every kill/unlink (or the no-prior-instance check)
of an entry completes strictly before that entry's spawn is issued:
`Launching` never begins before `Terminating` has finished. -/
theorem c9_term_before_spawn (env : Env) (src : List String) (pf : Option String)
    (k : Nat) (hk : k < src.length) :
    ∃ A tE B p,
      (runCycle env src pf).events
        = A ++ tE ++ [(k, Ev.termDone), (k, Ev.spawnEv p)] ++ B ∧
      (∀ e ∈ A, e.1 < k) ∧ (∀ e ∈ tE, e.1 = k) ∧ (∀ e ∈ B, k < e.1) := by
  have h := trFrom_decomp env src pf 0 k hk
  rw [runCycle_events]
  simpa using h

/-- Witness for C9 at a concrete input, together with the fully evaluated
trace of that input showing the completion marker right before the spawn. -/
theorem c9_term_before_spawn_witness :
    0 < (["cfg1"] : List String).length ∧
    (runCycle envA ["cfg1"] none).events
      = [(0, Ev.termDone), (0, Ev.spawnEv "cfg1")] ∧
    (∃ A tE B p,
      (runCycle envA ["cfg1"] none).events
        = A ++ tE ++ [(0, Ev.termDone), (0, Ev.spawnEv p)] ++ B ∧
      (∀ e ∈ A, e.1 < 0) ∧ (∀ e ∈ tE, e.1 = 0) ∧ (∀ e ∈ B, 0 < e.1)) :=
  ⟨by decide, by decide, c9_term_before_spawn envA ["cfg1"] none 0 (by decide)⟩

/-- Claim C10: all close handlers of a file group share the one `_restart`
flag captured by closure; close events fire after the synchronous cycle,
so each handler reads the flag's final value, whatever it was at that
process's launch.  Hence once any src entry's termination succeeded (some
pid was killed), every observed close of the group is reported `reloaded`,
and when none succeeded every observed close is reported `started`. -/
theorem c10_shared_flag (env : Env) (src : List String) (pf : Option String)
    (closes : List Int) :
    cycleNotifications (runCycle env src pf) closes
      = closes.map (fun _ => closeDispatch (runCycle env src pf).restartFlag) ∧
    ((runCycle env src pf).killed ≠ [] →
      ∀ n ∈ cycleNotifications (runCycle env src pf) closes,
        n = Notification.haproxyReloaded) ∧
    ((runCycle env src pf).killed = [] →
      ∀ n ∈ cycleNotifications (runCycle env src pf) closes,
        n = Notification.haproxyStarted) := by
  have hiff : (runCycle env src pf).restartFlag = true ↔
      (runCycle env src pf).killed ≠ [] := by
    rw [runCycle_flag, runCycle_killed]
    by_cases hs : src.isEmpty
    · simp [hs]
    · cases pf with
      | none => simp [hs, flagAfter, killedAfter]
      | some c =>
          cases hk : killResult env c with
          | ok p => simp [hs, flagAfter, killedAfter, hk]
          | error e => simp [hs, flagAfter, killedAfter, hk]
  refine ⟨rfl, ?_, ?_⟩
  · intro hne n hn
    have hfl : (runCycle env src pf).restartFlag = true := hiff.mpr hne
    rcases List.mem_map.mp hn with ⟨x, -, hx⟩
    simp [closeDispatch, hfl] at hx
    exact hx.symm
  · intro heq n hn
    have hfl : (runCycle env src pf).restartFlag = false := by
      cases hf : (runCycle env src pf).restartFlag
      · rfl
      · exact absurd heq (hiff.mp hf)
    rcases List.mem_map.mp hn with ⟨x, -, hx⟩
    simp [closeDispatch, hfl] at hx
    exact hx.symm

/-- Witness for C10 at a concrete input: a two-source group whose first
entry's termination succeeds; a close is classified `reloaded`. -/
theorem c10_shared_flag_witness :
    (runCycle envA ["a", "b"] (some "7")).killed ≠ [] ∧
    closeDispatch (runCycle envA ["a", "b"] (some "7")).restartFlag
      = Notification.haproxyReloaded :=
  ⟨by decide,
    (c10_shared_flag envA ["a", "b"] (some "7") [0, 2]).2.1 (by decide) _ (by decide)⟩
